import Mathlib

/-!
Verification of the multi-source plugin system of the adsreader repository.

The definitions below are a shallow embedding of the JavaScript source:

* `src/src/capacitor/mobile-database.js` — the `PluginManager` class
  (registration, active-plugin selection, federated search, lookup with
  fallback, rate limiting, identifier classification);
* `src/unnamed/part_000-ish` type module (`validatePlugin`, `createPaper`);
* `src/src/plugins/ads/index.cjs` — the ADS plugin helper
  `esourcesToPdfSources`.

Modelling conventions:

* JavaScript strings are Lean `String` / `List Char`; regular expressions
  from the source are translated into explicit character-class matchers.
* JavaScript `Map` objects (the plugin registry, `lastRequestTime`) are
  association lists in insertion order; `Map.set` on a fresh key appends.
* Fallible plugin calls are `Except String` values; a plugin method that
  may be absent (duck typing in the source) is an `Option` of a function,
  and calling an absent method yields the `TypeError` the engine would
  throw, which the manager then catches where the source catches.
* Asynchronous suspension (`setTimeout`) is modelled by returning the wait
  duration explicitly and treating the wait as exact; `Date.now()` values
  are explicit `Nat` parameters.
* Registration timestamps (`registeredAt`) and the event-emitter calls have
  no bearing on any claim and are not modelled.
-/

namespace AdsReader

/-! ## Identifier classifier (`PluginManager._detectIdentifierType`) -/

/-- Identifier type tag returned by the classifier. -/
inductive IdType where
  | doi
  | arxiv
  | bibcode
  | inspire
  | unknown
deriving DecidableEq, Repr

/-- Trim leading and trailing whitespace, as `String.prototype.trim` does. -/
def trimChars (l : List Char) : List Char :=
  ((l.dropWhile Char.isWhitespace).reverse.dropWhile Char.isWhitespace).reverse

/-- Test whether `hay` starts with `needle` (character lists). -/
def startsWithChars : List Char → List Char → Bool
  | _, [] => true
  | [], _ :: _ => false
  | h :: hs, n :: ns => h == n && startsWithChars hs ns

/-- Test whether `needle` occurs as a contiguous substring of the list. -/
def containsChars (needle : List Char) : List Char → Bool
  | [] => startsWithChars [] needle
  | c :: t => startsWithChars (c :: t) needle || containsChars needle t

/-- Matcher for the DOI rule `/^10\.\d\x7b4,\x7d\//` of the source: the
string starts with `10.`, then at least four digits, then a slash. -/
def doiTest : List Char → Bool
  | '1' :: '0' :: '.' :: rest =>
      let ds := rest.takeWhile Char.isDigit
      decide (4 ≤ ds.length) &&
        (match rest.drop ds.length with
         | '/' :: _ => true
         | _ => false)
  | _ => false

/-- Matcher for the modern arXiv rule `/^\d\x7b4\x7d\.\d\x7b4,5\x7d(v\d+)?$/`:
four digits, a dot, four or five digits, an optional version suffix. -/
def arxivNewTest (l : List Char) : Bool :=
  (l.take 4).length == 4 && (l.take 4).all Char.isDigit &&
    (match l.drop 4 with
     | '.' :: tail =>
        let ds := tail.takeWhile Char.isDigit
        decide (4 ≤ ds.length) && decide (ds.length ≤ 5) &&
          (match tail.drop ds.length with
           | [] => true
           | 'v' :: vs => !vs.isEmpty && vs.all Char.isDigit
           | _ => false)
     | _ => false)

/-- Matcher for the legacy arXiv rule `/^[a-z-]+\/\d\x7b7\x7d$/`: a nonempty
run of lowercase letters or dashes, a slash, exactly seven digits. -/
def arxivLegacyTest (l : List Char) : Bool :=
  let pre := l.takeWhile (fun c => c.isLower || c == '-')
  !pre.isEmpty &&
    (match l.drop pre.length with
     | '/' :: ds => ds.length == 7 && ds.all Char.isDigit
     | _ => false)

/-- Character class `[A-Za-z&.]` used for the 5-character bibcode segment. -/
def bibcodeClassA (c : Char) : Bool :=
  c.isAlpha || c == '&' || c == '.'

/-- Character class `[A-Za-z0-9.]` used for the 9-character bibcode segment. -/
def bibcodeClassB (c : Char) : Bool :=
  c.isAlphanum || c == '.'

/-- Matcher for the bibcode rule
`/^\d\x7b4\x7d[A-Za-z&.]\x7b5\x7d[A-Za-z0-9.]\x7b9\x7d[A-Z.]$/`:
exactly 19 characters, a 4-digit year, five characters from `[A-Za-z&.]`,
nine characters from `[A-Za-z0-9.]`, one character from `[A-Z.]`. -/
def bibcodeTest (l : List Char) : Bool :=
  l.length == 19 &&
  (l.take 4).all Char.isDigit &&
  ((l.drop 4).take 5).all bibcodeClassA &&
  ((l.drop 9).take 9).all bibcodeClassB &&
  (l.drop 18).all (fun c => c.isUpper || c == '.')

/-- Matcher for the INSPIRE rule: `/^\d+$/` and length under 10. -/
def inspireTest (l : List Char) : Bool :=
  !l.isEmpty && l.all Char.isDigit && decide (l.length < 10)

/-- Embedding of `PluginManager._detectIdentifierType`: trim, then apply the
rules in source order (doi, arxiv, bibcode, inspire, unknown). -/
def detectIdentifierType (s : String) : IdType :=
  let id := trimChars s.data
  if doiTest id then .doi
  else if arxivNewTest id || arxivLegacyTest id then .arxiv
  else if bibcodeTest id then .bibcode
  else if inspireTest id then .inspire
  else .unknown

/-- Character class for the 5-character segment as the specification words
it: alphanumeric, ampersand or dot. Written from the spec text, not from
the source, to compare the two shapes. -/
def specBibcodeClassA (c : Char) : Bool :=
  c.isAlphanum || c == '&' || c == '.'

/-- Bibcode shape as the specification words it (spec-worded counterpart of
`bibcodeTest`; the 5-character segment admits digits here). -/
def specBibcodeShape (l : List Char) : Bool :=
  l.length == 19 &&
  (l.take 4).all Char.isDigit &&
  ((l.drop 4).take 5).all specBibcodeClassA &&
  ((l.drop 9).take 9).all bibcodeClassB &&
  (l.drop 18).all (fun c => c.isUpper || c == '.')

/-! ## Data model (`types.cjs`) -/

/-- Capability flags of a plugin (`PluginCapabilities` typedef). -/
structure Capabilities where
  search : Bool
  lookup : Bool
  references : Bool
  citations : Bool
  pdfDownload : Bool
  bibtex : Bool
  metadata : Bool
deriving DecidableEq, Repr

/-- Capability names usable as the `capability` filter of
`PluginManager.list` (string keys in the source). -/
inductive CapKey where
  | search
  | lookup
  | references
  | citations
  | pdfDownload
  | bibtex
  | metadata
deriving DecidableEq, Repr

/-- Read the named capability flag (property access `capabilities[key]`). -/
def capGet (c : Capabilities) : CapKey → Bool
  | .search => c.search
  | .lookup => c.lookup
  | .references => c.references
  | .citations => c.citations
  | .pdfDownload => c.pdfDownload
  | .bibtex => c.bibtex
  | .metadata => c.metadata

/-- Rate limit status self-reported by a plugin (`RateLimitStatus`
typedef). `retryAfter` is optional; the source tests it for truthiness, so
`some 0` counts as absent there. -/
structure RateLimitStatus where
  remaining : Int
  limit : Int
  resetAt : Nat
  retryAfter : Option Nat
deriving DecidableEq, Repr

/-- Normalized paper record, restricted to the fields the manager itself
reads or writes (`title`, `authors` required per the typedef; `source` and
`sourceId` are set by plugins and overwritten by the manager when tagging
results). -/
structure Paper where
  title : String
  authors : List String
  source : String
  sourceId : String
deriving DecidableEq, Repr

/-- Search result shape (`SearchResult` typedef). The free-form `metadata`
object is not modelled; no claim concerns it. -/
structure SearchResult where
  papers : List Paper
  totalResults : Int
  nextCursor : Option String
deriving DecidableEq, Repr

/-- Source-agnostic query (`UnifiedQuery` typedef). The manager passes the
query through to plugins untouched, so only a representative subset of the
fields is carried. -/
structure UnifiedQuery where
  raw : Option String
  title : Option String
  author : Option String
  year : Option Int
  limit : Option Nat
  offset : Option Nat
deriving DecidableEq, Repr

/-- Source plugin as the manager sees it. Methods that the source accesses
by duck typing (`typeof plugin.search === "function"`, `plugin.getByDOI`)
are `Option`-valued function fields; the remaining `has...` booleans record
presence of methods whose behavior no claim depends on. `hasCapabilities`
and `hasAuth` model presence (truthiness) of the `capabilities` and `auth`
objects; when `hasCapabilities` is false the `capabilities` field is
meaningless (reading a flag off a missing object would throw in JS, which
`validatePlugin` rules out for every registered plugin). Plugin behavior is
deterministic in the argument, modelling one fixed world of responses. -/
structure Plugin where
  id : String
  name : String
  hasCapabilities : Bool
  capabilities : Capabilities
  hasAuth : Bool
  searchFn : Option (UnifiedQuery → Except String SearchResult)
  getRecordFn : Option (String → Except String (Option Paper))
  getByDOIFn : Option (String → Except String (Option Paper))
  getByArxivFn : Option (String → Except String (Option Paper))
  hasGetPdfSources : Bool
  hasDownloadPdf : Bool
  hasGetReferences : Bool
  hasGetCitations : Bool
  hasGetBibtex : Bool
  hasInitHook : Bool
  rateLimitStatus : Option RateLimitStatus

/-- Test for the plugin ID pattern `/^[a-z][a-z0-9_-]*$/`. -/
def idFormatOk (s : String) : Bool :=
  match s.data with
  | [] => false
  | c :: rest =>
      c.isLower && rest.all (fun d => d.isLower || d.isDigit || d == '_' || d == '-')

/-- Embedding of `validatePlugin` from `types.cjs`: required properties
(id, name, capabilities, auth — truthiness tested), capability-to-method
checks for search, lookup and pdfDownload only, and the ID format rule
(applied only when the id is truthy). Returns the error list; the plugin is
valid when the list is empty. -/
def validatePlugin (p : Plugin) : List String :=
  (if p.id == "" then [("Missing required property: id")] else []) ++
  (if p.name == "" then [("Missing required property: name")] else []) ++
  (if !p.hasCapabilities then [("Missing required property: capabilities")] else []) ++
  (if !p.hasAuth then [("Missing required property: auth")] else []) ++
  (if p.hasCapabilities && p.capabilities.search && p.searchFn.isNone then
    [("Plugin declares search capability but has no search method")] else []) ++
  (if p.hasCapabilities && p.capabilities.lookup && p.getRecordFn.isNone then
    [("Plugin declares lookup capability but has no getRecord method")] else []) ++
  (if p.hasCapabilities && p.capabilities.pdfDownload && !p.hasGetPdfSources then
    [("Plugin declares pdfDownload capability but has no getPdfSources method")] else []) ++
  (if p.hasCapabilities && p.capabilities.pdfDownload && !p.hasDownloadPdf then
    [("Plugin declares pdfDownload capability but has no downloadPdf method")] else []) ++
  (if p.id != "" && !idFormatOk p.id then
    [("Plugin ID must be lowercase alphanumeric with optional - or _")] else [])

/-! ## Plugin manager state (`PluginManager` in `mobile-database.js`) -/

/-- Registry entry (`PluginRegistration`); the `registeredAt` timestamp is
not modelled. -/
structure Registration where
  id : String
  plugin : Plugin
  enabled : Bool

/-- Manager state: the `plugins` map (association list in insertion
order), the active plugin pointer, and the per-plugin last-request times of
the rate limiter. -/
structure ManagerState where
  plugins : List Registration
  activePluginId : Option String
  lastRequestTime : List (String × Nat)

/-- State of a freshly constructed `PluginManager`. -/
def emptyState : ManagerState :=
  { plugins := [], activePluginId := none, lastRequestTime := [] }

/-- Registry membership test (`this.plugins.has(id)`). -/
def hasId (s : ManagerState) (pid : String) : Bool :=
  s.plugins.any (fun r => r.id == pid)

/-- Embedding of `PluginManager.get`. -/
def mgrGet (s : ManagerState) (pid : String) : Option Plugin :=
  (s.plugins.find? (fun r => r.id == pid)).map (fun r => r.plugin)

/-- Embedding of `PluginManager.getActive`. -/
def getActive (s : ManagerState) : Option Plugin :=
  match s.activePluginId with
  | none => none
  | some pid => mgrGet s pid

/-- Embedding of `PluginManager.list`: filter by enabled flag and by a
capability key, then project to the plugin. -/
def listPlugins (s : ManagerState) (enabledOnly : Bool) (capability : Option CapKey) :
    List Plugin :=
  (s.plugins.filter (fun reg =>
      (!enabledOnly || reg.enabled) &&
      (match capability with
       | none => true
       | some k => capGet reg.plugin.capabilities k))).map (fun reg => reg.plugin)

/-- Embedding of `PluginManager.setActive`: fails when the id is not
registered; otherwise repoints the active pointer. -/
def setActive (s : ManagerState) (pid : String) : Except String ManagerState :=
  if hasId s pid then
    .ok { s with activePluginId := some pid }
  else
    .error ("Plugin is not registered")

/-- Embedding of `PluginManager.register`: validate, reject duplicate ids,
append the registration (enabled), and make the plugin active when no
plugin was active. A thrown error leaves the state untouched; the pure
embedding signals it through `Except`. -/
def register (s : ManagerState) (p : Plugin) : Except String ManagerState :=
  if !(validatePlugin p).isEmpty then
    .error ("Invalid plugin")
  else if hasId s p.id then
    .error ("Plugin is already registered")
  else
    let s1 : ManagerState :=
      { s with plugins := s.plugins ++ [{ id := p.id, plugin := p, enabled := true }] }
    if s.activePluginId == none then setActive s1 p.id else .ok s1

/-- Embedding of `PluginManager.unregister`: fails when the id is not
registered; removes the entry; when the removed plugin was active, the
first remaining registration (via `list()[0].id`, reading the plugin id)
becomes active, or none remains active. The shutdown hook of the plugin is
called with errors swallowed and has no effect on manager state. -/
def unregister (s : ManagerState) (pid : String) : Except String ManagerState :=
  if !hasId s pid then
    .error ("Plugin is not registered")
  else
    let plugins1 := s.plugins.filter (fun r => !(r.id == pid))
    let active1 :=
      if s.activePluginId == some pid then
        ((listPlugins { s with plugins := plugins1 } false none).head?).map (fun p => p.id)
      else s.activePluginId
    .ok { s with plugins := plugins1, activePluginId := active1 }

/-- Embedding of `PluginManager.enable`. -/
def enable (s : ManagerState) (pid : String) : Except String ManagerState :=
  if !hasId s pid then
    .error ("Plugin is not registered")
  else
    .ok { s with plugins := s.plugins.map (fun r =>
            if r.id == pid then { r with enabled := true } else r) }

/-- Embedding of `PluginManager.disable`: mark the registration disabled;
when the disabled plugin was active, the first remaining enabled plugin
(via `list(enabledOnly)[0].id`) becomes active, or none. -/
def disable (s : ManagerState) (pid : String) : Except String ManagerState :=
  if !hasId s pid then
    .error ("Plugin is not registered")
  else
    let plugins1 := s.plugins.map (fun r =>
      if r.id == pid then { r with enabled := false } else r)
    let s1 := { s with plugins := plugins1 }
    let active1 :=
      if s.activePluginId == some pid then
        ((listPlugins s1 true none).head?).map (fun p => p.id)
      else s.activePluginId
    .ok { s1 with activePluginId := active1 }

/-- Embedding of `PluginManager.initialize`: every registration whose
plugin has an initialize hook and whose hook throws (the oracle `fails`
says which ids throw) is marked disabled; nothing else changes. -/
def initAll (s : ManagerState) (fails : String → Bool) : ManagerState :=
  { s with plugins := s.plugins.map (fun r =>
      if r.plugin.hasInitHook && fails r.id then { r with enabled := false } else r) }

/-- Embedding of `PluginManager.shutdown`: plugin shutdown hooks run with
errors swallowed, then the registry is cleared and the active pointer
nulled. `lastRequestTime` is not cleared by the source. -/
def shutdownAll (s : ManagerState) : ManagerState :=
  { s with plugins := [], activePluginId := none }

/-! ## Federated search (`PluginManager.federatedSearch`) -/

/-- Enabled plugins with the search capability, the dispatch set of
`federatedSearch`. -/
def searchPluginsOf (s : ManagerState) : List Plugin :=
  listPlugins s true (some CapKey.search)

/-- Call `plugin.search(query)`. A missing method raises the TypeError the
engine would throw, which the surrounding catch collects. -/
def callSearch (p : Plugin) (q : UnifiedQuery) : Except String SearchResult :=
  match p.searchFn with
  | some f => f q
  | none => .error ("TypeError: plugin.search is not a function")

/-- Tag every paper of a result with the originating plugin id
(`result.papers.map(p => (..., source: plugin.id))`). -/
def tagSearchResult (pid : String) (r : SearchResult) : SearchResult :=
  { r with papers := r.papers.map (fun p => { p with source := pid }) }

/-- Per-plugin loop body of `federatedSearch`: each dispatch lands its
outcome in the results map or the errors map. The `Promise.allSettled`
join is order-insensitive on the two maps (distinct keys), so the loop is
sequential here; the rate-limit wait inside the try block never throws and
does not affect either map. -/
def fedLoop (q : UnifiedQuery) : List Plugin →
    List (String × SearchResult) × List (String × String)
  | [] => ([], [])
  | p :: rest =>
      let acc := fedLoop q rest
      match callSearch p q with
      | .ok r => ((p.id, tagSearchResult p.id r) :: acc.1, acc.2)
      | .error e => (acc.1, (p.id, e) :: acc.2)

/-- Embedding of `PluginManager.federatedSearch`: dispatch to every enabled
search-capable plugin, collect successes and exceptions per plugin id.
Total by construction, as the source catches every per-plugin error. -/
def federatedSearch (s : ManagerState) (q : UnifiedQuery) :
    List (String × SearchResult) × List (String × String) :=
  fedLoop q (searchPluginsOf s)

/-! ## Lookup with fallback (`PluginManager.lookup`) -/

/-- Call `plugin.getRecord(identifier)`, raising a TypeError when the
method is absent (the lookup loop catches it as a miss). -/
def callGetRecord (p : Plugin) (identifier : String) : Except String (Option Paper) :=
  match p.getRecordFn with
  | some f => f identifier
  | none => .error ("TypeError: plugin.getRecord is not a function")

/-- Embedding of `PluginManager._lookupWithPlugin`: pick the
type-appropriate method; every case without a specific method falls
through to the generic `getRecord`. The bibcode and inspire branches call
`getRecord` for the matching plugin id and fall through to the very same
`getRecord` otherwise, mirroring the source switch. -/
def lookupWithPlugin (p : Plugin) (identifier : String) (idType : IdType) :
    Except String (Option Paper) :=
  match idType with
  | .doi =>
      match p.getByDOIFn with
      | some f => f identifier
      | none => callGetRecord p identifier
  | .arxiv =>
      match p.getByArxivFn with
      | some f => f identifier
      | none => callGetRecord p identifier
  | .bibcode =>
      if p.id == "ads" then callGetRecord p identifier
      else callGetRecord p identifier
  | .inspire =>
      if p.id == "inspire" then callGetRecord p identifier
      else callGetRecord p identifier
  | .unknown => callGetRecord p identifier

/-- Outcome of one lookup attempt as the manager classifies it: a paper, or
a miss (null result as well as thrown error, both caught and logged). -/
def lookupAttempt (identifier : String) (idType : IdType) (p : Plugin) : Option Paper :=
  match lookupWithPlugin p identifier idType with
  | .ok (some paper) => some paper
  | .ok none => none
  | .error _ => none

/-- Fallback loop of `lookup` over the other enabled lookup-capable
plugins, skipping the active plugin id, returning the first hit. -/
def lookupOthers (activeId : Option String) (identifier : String) (idType : IdType) :
    List Plugin → Option Paper
  | [] => none
  | p :: rest =>
      if (match activeId with | some a => p.id == a | none => false) then
        lookupOthers activeId identifier idType rest
      else
        match lookupAttempt identifier idType p with
        | some paper => some paper
        | none => lookupOthers activeId identifier idType rest

/-- Embedding of `PluginManager.lookup`: classify the identifier, try the
active plugin first when it is lookup-capable (errors caught as a miss),
then every other enabled lookup-capable plugin in registration order;
first non-null paper wins, null when all miss. -/
def lookup (s : ManagerState) (identifier : String) : Option Paper :=
  let idType := detectIdentifierType identifier
  let lookupPlugins := listPlugins s true (some CapKey.lookup)
  let active := getActive s
  let fromActive : Option Paper :=
    match active with
    | some a =>
        if a.capabilities.lookup then lookupAttempt identifier idType a else none
    | none => none
  match fromActive with
  | some paper => some paper
  | none => lookupOthers (active.map (fun a => a.id)) identifier idType lookupPlugins

/-- Candidate order of `lookup` as the spec words it: the active plugin
first when it is lookup-capable, then the enabled lookup-capable plugins
in registration order with the active plugin skipped. Used to state that
the code returns the first non-null attempt along this list. -/
def lookupCandidates (s : ManagerState) : List Plugin :=
  (match getActive s with
   | some a => if a.capabilities.lookup then [a] else []
   | none => []) ++
  ((listPlugins s true (some CapKey.lookup)).filter
    (fun p => !(match (getActive s).map (fun a => a.id) with
                | some aid => p.id == aid
                | none => false)))

/-! ## Rate limiter (`PluginManager._enforceRateLimit`, `_getMinDelay`) -/

/-- Value produced by the object-literal lookup inside `_getMinDelay`:
either a number from the `delays` literal (or its `default` fallback) or a
truthy non-numeric value inherited through the prototype chain of the
literal (for example `delays.constructor` is the `Object` function). -/
inductive DelayVal where
  | num (n : Nat)
  | protoObj
deriving DecidableEq, Repr

/-- Property names that an object literal inherits from
`Object.prototype`, whose values are truthy non-numeric (functions, or the
prototype object itself for `__proto__`). A lookup of one of these keys on
the `delays` literal finds the inherited value, so `||` never falls back
to the default. -/
def objectProtoKeys : List String :=
  ["constructor", "hasOwnProperty", "isPrototypeOf", "propertyIsEnumerable",
   "toLocaleString", "toString", "valueOf", "__defineGetter__",
   "__defineSetter__", "__lookupGetter__", "__lookupSetter__", "__proto__"]

/-- Embedding of `PluginManager._getMinDelay`: the lookup
`delays[pluginId] || delays.default` first finds the own keys of the
literal (`ads`, `arxiv`, `inspire`, and `default` itself), then traverses
the prototype chain — a key inherited from `Object.prototype` yields its
truthy non-numeric value — and only otherwise (undefined, falsy) falls
back to `delays.default` = 100. -/
def getMinDelay (pluginId : String) : DelayVal :=
  if pluginId == "ads" then .num 50
  else if pluginId == "arxiv" then .num 3000
  else if pluginId == "inspire" then .num 350
  else if pluginId == "default" then .num 100
  else if pluginId ∈ objectProtoKeys then .protoObj
  else .num 100

/-- Lookup in the `lastRequestTime` map. -/
def lookupLast (m : List (String × Nat)) (pid : String) : Option Nat :=
  (m.find? (fun kv => kv.1 == pid)).map (fun kv => kv.2)

/-- `Map.set` on `lastRequestTime`: overwrite the existing entry or append
a fresh one. -/
def setLast (m : List (String × Nat)) (pid : String) (t : Nat) : List (String × Nat) :=
  if m.any (fun kv => kv.1 == pid) then
    m.map (fun kv => if kv.1 == pid then (pid, t) else kv)
  else m ++ [(pid, t)]

/-- First wait of `_enforceRateLimit`: when the self-reported status shows
no remaining quota and a truthy `retryAfter`, wait that many seconds. -/
def retryWaitMs (st : RateLimitStatus) : Nat :=
  if st.remaining ≤ 0 && (match st.retryAfter with | some r => decide (r ≠ 0) | none => false) then
    (st.retryAfter.getD 0) * 1000
  else 0

/-- Embedding of `PluginManager._enforceRateLimit` at wall-clock time
`now` (milliseconds): returns the total suspension in milliseconds and the
state with the new last-request time. Unregistered plugins and plugins
without a (truthy) rate limit status return immediately and record
nothing, as the source does. `setTimeout` waits are treated as exact, so
the recorded `Date.now()` is `now` plus the total wait. When the minimum
delay is a non-numeric inherited value (a plugin id colliding with an
`Object.prototype` key), the JS comparison `elapsed < minDelay` coerces it
through NaN and is false, so no minimum-delay wait is applied, though the
last-request time is still recorded. -/
def enforceRateLimit (s : ManagerState) (pid : String) (now : Nat) :
    Nat × ManagerState :=
  match mgrGet s pid with
  | none => (0, s)
  | some p =>
      match p.rateLimitStatus with
      | none => (0, s)
      | some st =>
          let w1 := retryWaitMs st
          let t2 := now + w1
          let last := (lookupLast s.lastRequestTime pid).getD 0
          let elapsed : Int := (t2 : Int) - (last : Int)
          let w2 :=
            match getMinDelay pid with
            | .num n => if elapsed < (n : Int) then ((n : Int) - elapsed).toNat else 0
            | .protoObj => 0
          let t3 := t2 + w2
          (w1 + w2, { s with lastRequestTime := setLast s.lastRequestTime pid t3 })

/-! ## ADS plugin PDF sources (`esourcesToPdfSources` in
`src/src/plugins/ads/index.cjs`) -/

/-- PDF source entry (`PdfSource` typedef); `ty` embeds the JS field named
`type`. -/
structure PdfSource where
  ty : String
  url : String
  label : String
  requiresAuth : Bool
  priority : Nat
deriving DecidableEq, Repr

/-- ADS esource record as the helper reads it: `link_type`, `type` (fallback
field, embedded as `tyField`) and `url`, each possibly absent. -/
structure Esource where
  linkTypeField : Option String
  tyField : Option String
  url : Option String

/-- JS `a || b || ""` over two optional strings: the first truthy
(non-empty) value, else the empty string. -/
def firstTruthy (a b : Option String) : String :=
  match a with
  | some s => if s == "" then (match b with | some t => t | none => "") else s
  | none => match b with | some t => t | none => ""

/-- Effective link type of an esource (`source.link_type || source.type ||
""`). -/
def esLinkType (e : Esource) : String :=
  firstTruthy e.linkTypeField e.tyField

/-- Guard `!url || !url.startsWith("http")` of the loop, negated: the
esource has a truthy url beginning with `http`. -/
def esUrlOk (e : Esource) : Bool :=
  match e.url with
  | none => false
  | some u => u != "" && startsWithChars u.data ("http").data

/-- Loop of `esourcesToPdfSources` with the running priority counter:
esources whose link type contains `EPRINT_PDF`, `PUB_PDF` or `ADS_PDF`
produce an entry of the matching type; anything else is skipped without
consuming a priority number. -/
def esLoop : List Esource → Nat → List PdfSource
  | [], _ => []
  | e :: rest, pcount =>
      if esUrlOk e then
        let lt := (esLinkType e).data
        let u := (match e.url with | some s => s | none => "")
        if containsChars ("EPRINT_PDF").data lt then
          { ty := "arxiv", url := u, label := "arXiv PDF",
            requiresAuth := false, priority := pcount } :: esLoop rest (pcount + 1)
        else if containsChars ("PUB_PDF").data lt then
          { ty := "publisher", url := u, label := "Publisher PDF",
            requiresAuth := true, priority := pcount } :: esLoop rest (pcount + 1)
        else if containsChars ("ADS_PDF").data lt then
          { ty := "ads_scan", url := u, label := "ADS Scan",
            requiresAuth := false, priority := pcount } :: esLoop rest (pcount + 1)
        else esLoop rest pcount
      else esLoop rest pcount

/-- Strip a leading case-insensitive `arXiv:` prefix
(`replace(/^arXiv:/i, "")`). -/
def stripArxivPrefixChars (l : List Char) : List Char :=
  if (l.take 6).map Char.toLower == ("arxiv:").data then l.drop 6 else l

/-- Strip a trailing version suffix (`replace(/v\d+$/, "")`): one `v`
followed by at least one digit at the very end. -/
def stripVersionChars (l : List Char) : List Char :=
  let rev := l.reverse
  let ds := rev.takeWhile Char.isDigit
  match rev.drop ds.length with
  | 'v' :: rest => if ds.isEmpty then l else rest.reverse
  | _ => l

/-- Clean an arXiv identifier for the constructed fallback URL. -/
def cleanArxivId (s : String) : String :=
  String.mk (stripVersionChars (stripArxivPrefixChars s.data))

/-- Embedding of `esourcesToPdfSources`: run the loop, then, when no
arXiv-type entry was produced and an arXiv id is known (truthy), append
one constructed arXiv entry whose priority continues the counter. The
`bibcode` parameter is unused by the source body. -/
def esourcesToPdfSources (esources : List Esource) (bibcode : String)
    (arxivId : Option String) : List PdfSource :=
  let sources := esLoop esources 0
  let arxivTruthy := match arxivId with | some a => a != "" | none => false
  if !(sources.any (fun src => src.ty == "arxiv")) && arxivTruthy then
    sources ++
      [{ ty := "arxiv",
         url := "https://arxiv.org/pdf/" ++ cleanArxivId (arxivId.getD "") ++ ".pdf",
         label := "arXiv PDF", requiresAuth := false,
         priority := sources.length }]
  else sources

/-! ## Paper factory (`createPaper` in `types.cjs`) -/

/-- Value a JS data field can hold, as far as the `createPaper` claim
needs: presence of a key with one of these values versus absence of the
key changes what object spread does. -/
inductive JsVal where
  | undef
  | nul
  | str (s : String)
  | num (n : Int)
deriving DecidableEq, Repr

/-- JS truthiness of a `JsVal`. -/
def jsTruthy : JsVal → Bool
  | .undef => false
  | .nul => false
  | .str s => s != ""
  | .num n => n != 0

/-- Input of `createPaper` restricted to the keys that interact with the
defaulted fields; `none` models an absent key, `some v` a present key with
value `v` (which object spread copies even when `v` is `undefined`). -/
structure PaperData where
  title : Option JsVal
  authors : Option (List String)

/-- Constructed paper with JS-faithful field values. -/
structure JsPaper where
  title : JsVal
  authors : List String
  source : String
  sourceId : String
deriving DecidableEq, Repr

/-- Embedding of `createPaper`: the literal first computes the defaults
`data.title || "Untitled"` and `data.authors || []` (an absent key reads
as `undefined`, hence falsy), then `...data` re-copies every key present
in `data`, overriding the defaults. -/
def createPaper (data : PaperData) (source sourceId : String) : JsPaper :=
  let baseTitle : JsVal :=
    match data.title with
    | some v => if jsTruthy v then v else .str ("Untitled")
    | none => .str ("Untitled")
  let baseAuthors : List String :=
    match data.authors with
    | some xs => xs
    | none => []
  { title := match data.title with | some v => v | none => baseTitle,
    authors := match data.authors with | some xs => xs | none => baseAuthors,
    source := source,
    sourceId := sourceId }

/-! ## Manager operation sequences (for the registry/active-pointer
invariant) -/

/-- One public mutating operation of the manager. Operations that throw in
the source leave the state unchanged in `step`. The `fails` oracle of
`opInitAll` says which plugin initialize hooks throw. -/
inductive MgrOp where
  | opRegister (p : Plugin)
  | opUnregister (pid : String)
  | opSetActive (pid : String)
  | opEnable (pid : String)
  | opDisable (pid : String)
  | opInitAll (fails : String → Bool)
  | opShutdown

/-- Effect of one operation on the manager state; a thrown error leaves
the state as it was. -/
def step (s : ManagerState) : MgrOp → ManagerState
  | .opRegister p => match register s p with | .ok s1 => s1 | .error _ => s
  | .opUnregister pid => match unregister s pid with | .ok s1 => s1 | .error _ => s
  | .opSetActive pid => match setActive s pid with | .ok s1 => s1 | .error _ => s
  | .opEnable pid => match enable s pid with | .ok s1 => s1 | .error _ => s
  | .opDisable pid => match disable s pid with | .ok s1 => s1 | .error _ => s
  | .opInitAll fails => initAll s fails
  | .opShutdown => shutdownAll s

/-- Run a sequence of operations from a state. -/
def run (s : ManagerState) (ops : List MgrOp) : ManagerState :=
  ops.foldl step s

/-- Success test for a fallible manager operation (true exactly when the
source call returns instead of throwing). -/
def isOkB {α : Type} (e : Except String α) : Bool :=
  match e with
  | .ok _ => true
  | .error _ => false

/-- Structural invariant tying the registry and the active pointer: every
registry entry is keyed by the id of its plugin, and the active pointer,
when set, names a registered key. -/
def Inv (s : ManagerState) : Prop :=
  (∀ r ∈ s.plugins, r.id = r.plugin.id) ∧
  (∀ a, s.activePluginId = some a → a ∈ s.plugins.map (fun r => r.id))

/-! ## Concrete instances used by witnesses -/

/-- Query with no fields set, used as a concrete dispatch argument. -/
def qDemo : UnifiedQuery :=
  { raw := none, title := none, author := none, year := none, limit := none, offset := none }

/-- Capability record with every flag off. -/
def capsNone : Capabilities :=
  { search := false, lookup := false, references := false, citations := false,
    pdfDownload := false, bibtex := false, metadata := false }

/-- Minimal structurally valid plugin with the given id and no optional
methods or capabilities. -/
def basePlugin (pid : String) : Plugin :=
  { id := pid, name := pid, hasCapabilities := true, capabilities := capsNone,
    hasAuth := true, searchFn := none, getRecordFn := none, getByDOIFn := none,
    getByArxivFn := none, hasGetPdfSources := false, hasDownloadPdf := false,
    hasGetReferences := false, hasGetCitations := false, hasGetBibtex := false,
    hasInitHook := false, rateLimitStatus := none }

/-- Search-capable plugin whose search succeeds with an empty page. -/
def fedPluginA : Plugin :=
  { basePlugin ("pa") with
    capabilities := { capsNone with search := true },
    searchFn := some (fun _ => .ok { papers := [], totalResults := 1, nextCursor := none }) }

/-- Search-capable plugin whose search always throws. -/
def fedPluginB : Plugin :=
  { basePlugin ("pb") with
    capabilities := { capsNone with search := true },
    searchFn := some (fun _ => .error ("network failure")) }

/-- Second succeeding search-capable plugin. -/
def fedPluginC : Plugin :=
  { basePlugin ("pc") with
    capabilities := { capsNone with search := true },
    searchFn := some (fun _ => .ok { papers := [], totalResults := 2, nextCursor := none }) }

/-- Registry with three search-capable plugins of which the middle one
always throws, the federated-search isolation scenario of the spec. -/
def fedDemoState : ManagerState :=
  { plugins :=
      [{ id := "pa", plugin := fedPluginA, enabled := true },
       { id := "pb", plugin := fedPluginB, enabled := true },
       { id := "pc", plugin := fedPluginC, enabled := true }],
    activePluginId := some ("pa"), lastRequestTime := [] }

/-- Paper returned by the second lookup plugin of the fallback scenario. -/
def lookupDemoPaper : Paper :=
  { title := "Found paper", authors := [], source := "two", sourceId := "10.1234/x" }

/-- Active lookup plugin whose getByDOI misses (returns null). -/
def lookupPluginOne : Plugin :=
  { basePlugin ("one") with
    capabilities := { capsNone with lookup := true },
    getRecordFn := some (fun _ => .ok none),
    getByDOIFn := some (fun _ => .ok none) }

/-- Fallback lookup plugin whose getByDOI returns a paper. -/
def lookupPluginTwo : Plugin :=
  { basePlugin ("two") with
    capabilities := { capsNone with lookup := true },
    getRecordFn := some (fun _ => .ok none),
    getByDOIFn := some (fun _ => .ok (some lookupDemoPaper)) }

/-- Registry for the lookup fallback scenario: the active plugin misses on
the DOI, the second one hits. -/
def lookupDemoState : ManagerState :=
  { plugins :=
      [{ id := "one", plugin := lookupPluginOne, enabled := true },
       { id := "two", plugin := lookupPluginTwo, enabled := true }],
    activePluginId := some ("one"), lastRequestTime := [] }

/-- Plugin declaring references, citations, bibtex and metadata
capabilities while implementing none of the corresponding methods. -/
def pRefsOnly : Plugin :=
  { basePlugin ("extra") with
    capabilities :=
      { capsNone with references := true, citations := true, bibtex := true, metadata := true } }

/-- State after registering the minimal plugin `pa` into an empty
manager. -/
def regDemoS1 : ManagerState :=
  step emptyState (MgrOp.opRegister (basePlugin ("pa")))

/-- State after registering `pa` then `pb`. -/
def regDemoS2 : ManagerState :=
  run emptyState [MgrOp.opRegister (basePlugin ("pa")), MgrOp.opRegister (basePlugin ("pb"))]

/-- State after additionally unregistering the active plugin `pa`. -/
def regDemoS3 : ManagerState :=
  step regDemoS2 (MgrOp.opUnregister ("pa"))

/-- Esource with a publisher link only, for the arXiv fallback scenario. -/
def esPubOnly : List Esource :=
  [{ linkTypeField := some ("ESOURCE|PUB_PDF"), tyField := none,
     url := some ("http://pub.example/x.pdf") }]

/-- Two esources with the same arXiv link type, defeating dedup-by-type. -/
def esDupArxiv : List Esource :=
  [{ linkTypeField := some ("EPRINT_PDF"), tyField := none, url := some ("http://a.example/1.pdf") },
   { linkTypeField := some ("EPRINT_PDF"), tyField := none, url := some ("http://b.example/2.pdf") }]

/-- Healthy rate limit status (quota left, no retryAfter). -/
def rlDemoStatus : RateLimitStatus :=
  { remaining := 100, limit := 5000, resetAt := 0, retryAfter := none }

/-- Plugin reporting a healthy rate limit status, registered as `arxiv`. -/
def rlPlugin : Plugin :=
  { basePlugin ("arxiv") with rateLimitStatus := some rlDemoStatus }

/-- Manager state for the rate-limit spacing scenario: one plugin with a
recorded last request at t = 500 ms. -/
def rlState : ManagerState :=
  { plugins := [{ id := "arxiv", plugin := rlPlugin, enabled := true }],
    activePluginId := none, lastRequestTime := [("arxiv", 500)] }

/-- Structurally valid plugin whose id collides with the inherited
`Object.prototype` key `constructor`. -/
def ctorPlugin : Plugin :=
  { basePlugin ("constructor") with rateLimitStatus := some rlDemoStatus }

/-- Manager state with the `constructor` plugin registered and a last
request recorded at t = 550 ms. -/
def ctorState : ManagerState :=
  { plugins := [{ id := "constructor", plugin := ctorPlugin, enabled := true }],
    activePluginId := none, lastRequestTime := [("constructor", 550)] }

/-- Operation sequence registering two plugins and unregistering the
active one. -/
def c10DemoOps : List MgrOp :=
  [MgrOp.opRegister (basePlugin ("pa")), MgrOp.opRegister (basePlugin ("pb")),
   MgrOp.opUnregister ("pa")]

/-! ## Theorems -/

/-- C3: the identifier classifier is a total function into the five tags,
trims whitespace before matching (a leading space never changes the
result), applies the rules in the priority order doi, arxiv, bibcode,
inspire, unknown (a rule fires exactly when every higher rule fails), and
maps the five sample identifiers of the spec to the documented tags. -/
theorem c3_classifier_totality_priority :
    (∀ s : String, doiTest (trimChars s.data) = true →
        detectIdentifierType s = IdType.doi) ∧
    (∀ s : String, doiTest (trimChars s.data) = false →
        (arxivNewTest (trimChars s.data) || arxivLegacyTest (trimChars s.data)) = true →
        detectIdentifierType s = IdType.arxiv) ∧
    (∀ s : String, doiTest (trimChars s.data) = false →
        (arxivNewTest (trimChars s.data) || arxivLegacyTest (trimChars s.data)) = false →
        bibcodeTest (trimChars s.data) = true →
        detectIdentifierType s = IdType.bibcode) ∧
    (∀ s : String, doiTest (trimChars s.data) = false →
        (arxivNewTest (trimChars s.data) || arxivLegacyTest (trimChars s.data)) = false →
        bibcodeTest (trimChars s.data) = false →
        inspireTest (trimChars s.data) = true →
        detectIdentifierType s = IdType.inspire) ∧
    (∀ s : String, doiTest (trimChars s.data) = false →
        (arxivNewTest (trimChars s.data) || arxivLegacyTest (trimChars s.data)) = false →
        bibcodeTest (trimChars s.data) = false →
        inspireTest (trimChars s.data) = false →
        detectIdentifierType s = IdType.unknown) ∧
    (∀ s : String, detectIdentifierType ⟨' ' :: s.data⟩ = detectIdentifierType s) ∧
    detectIdentifierType "10.1086/305772" = IdType.doi ∧
    detectIdentifierType "2401.12345" = IdType.arxiv ∧
    detectIdentifierType "2024ApJ...123..456A" = IdType.bibcode ∧
    detectIdentifierType "1234567" = IdType.inspire ∧
    detectIdentifierType "not-an-id" = IdType.unknown ∧
    detectIdentifierType " 2401.12345 " = IdType.arxiv := by
  refine ⟨?_, ?_, ?_, ?_, ?_, ?_, by decide, by decide, by decide, by decide, by decide, by decide⟩
  · intro s h
    simp [detectIdentifierType, h]
  · intro s h1 h2
    simp [detectIdentifierType, h1, h2]
  · intro s h1 h2 h3
    simp [detectIdentifierType, h1, h2, h3]
  · intro s h1 h2 h3 h4
    simp [detectIdentifierType, h1, h2, h3, h4]
  · intro s h1 h2 h3 h4
    simp [detectIdentifierType, h1, h2, h3, h4]
  · intro s
    have hd : trimChars (' ' :: s.data) = trimChars s.data := rfl
    show detectIdentifierType ⟨' ' :: s.data⟩ = detectIdentifierType s
    simp only [detectIdentifierType]
    simp only [hd]

/-- C3 witness: the doi rule instantiated at the sample DOI. -/
theorem c3_witness :
    doiTest (trimChars ("10.1086/305772").data) = true ∧
    detectIdentifierType "10.1086/305772" = IdType.doi :=
  ⟨by decide, c3_classifier_totality_priority.1 "10.1086/305772" (by decide)⟩

/-- C4 counterexample: the string `2024A9J..123..456.A` has the bibcode
shape exactly as the spec words it (its 5-character segment holds the
digit 9, admitted by "alphanumeric"), matches neither the DOI nor the
arXiv rules, yet the classifier returns unknown, not bibcode: the code
excludes digits from the 5-character segment. -/
theorem c4_counterexample :
    specBibcodeShape (("2024A9J..123..456.A").data) = true ∧
    doiTest (("2024A9J..123..456.A").data) = false ∧
    arxivNewTest (("2024A9J..123..456.A").data) = false ∧
    arxivLegacyTest (("2024A9J..123..456.A").data) = false ∧
    detectIdentifierType "2024A9J..123..456.A" = IdType.unknown := by
  refine ⟨by decide, by decide, by decide, by decide, by decide⟩

/-- C4 amended: with the 5-character segment restricted to letters,
ampersand and dot (the character class of the code, no digits), every
trimmed string of that 19-character shape that matches neither the DOI nor
the arXiv rules classifies as bibcode. -/
theorem c4_bibcode_shape :
    ∀ s : String, doiTest (trimChars s.data) = false →
      arxivNewTest (trimChars s.data) = false →
      arxivLegacyTest (trimChars s.data) = false →
      bibcodeTest (trimChars s.data) = true →
      detectIdentifierType s = IdType.bibcode := by
  intro s h1 h2 h3 h4
  simp [detectIdentifierType, h1, h2, h3, h4]

/-- C4 witness: the amended bibcode rule instantiated at the sample
bibcode. -/
theorem c4_witness :
    bibcodeTest (trimChars ("2024ApJ...123..456A").data) = true ∧
    detectIdentifierType "2024ApJ...123..456A" = IdType.bibcode :=
  ⟨by decide, c4_bibcode_shape "2024ApJ...123..456A" (by decide) (by decide) (by decide) (by decide)⟩

/-- C9: evaluation of `createPaper` showing the title-default bug. When
the data object has no title key the sentinel is produced, but a present
title key with a null (or undefined) value survives the spread `...data`
and overrides the sentinel, so the constructed paper carries a non-string
title, contradicting the required string title of the Paper typedef. -/
theorem c9_create_paper_title_bug :
    (∀ source sourceId : String,
        (createPaper { title := none, authors := none } source sourceId).title =
          JsVal.str ("Untitled")) ∧
    (createPaper { title := some JsVal.nul, authors := none } ("ads") ("X")).title =
      JsVal.nul ∧
    (createPaper { title := some JsVal.undef, authors := none } ("ads") ("X")).title =
      JsVal.undef := by
  refine ⟨fun _ _ => rfl, rfl, rfl⟩

/-- C7 counterexample: two esources with the arXiv link type produce two
arXiv-type entries, so the function does not deduplicate by type. -/
theorem c7_counterexample :
    ((esourcesToPdfSources esDupArxiv ("2024X") none).countP
        (fun src => src.ty == "arxiv")) = 2 := by
  rfl

/-- C7 amended: the function does not deduplicate by type in general, but
the arXiv fallback holds: when the esource loop produces no arXiv-type
entry and an arXiv identifier is known (truthy), the returned list
contains exactly one arXiv-type entry, whose URL is deterministically
constructed from the identifier with the arXiv prefix and the version
suffix stripped, at the next priority number. -/
theorem c7_pdf_arxiv_fallback :
    ∀ (esources : List Esource) (bibcode a : String),
      (esLoop esources 0).any (fun src => src.ty == "arxiv") = false →
      a ≠ "" →
      (esourcesToPdfSources esources bibcode (some a)).filter
          (fun src => src.ty == "arxiv") =
        [{ ty := "arxiv",
           url := "https://arxiv.org/pdf/" ++ cleanArxivId a ++ ".pdf",
           label := "arXiv PDF", requiresAuth := false,
           priority := (esLoop esources 0).length }] := by
  intro es b a hany hne
  have hne2 : (a != "") = true := by
    simpa using hne
  have hfil : (esLoop es 0).filter (fun src => src.ty == "arxiv") = [] := by
    rw [List.filter_eq_nil_iff]
    intro x hx
    have := (List.any_eq_false).mp hany x hx
    simpa using this
  simp only [esourcesToPdfSources, hany, hne2, Bool.not_false, Bool.true_and]
  rw [if_pos trivial]
  rw [List.filter_append, hfil]
  simp

/-- C7 witness: one publisher-only esource with identifier
`arXiv:2401.12345v2` yields exactly the constructed arXiv entry. -/
theorem c7_witness :
    (esLoop esPubOnly 0).any (fun src => src.ty == "arxiv") = false ∧
    (esourcesToPdfSources esPubOnly ("2024X") (some ("arXiv:2401.12345v2"))).filter
        (fun src => src.ty == "arxiv") =
      [{ ty := "arxiv",
         url := "https://arxiv.org/pdf/" ++ cleanArxivId ("arXiv:2401.12345v2") ++ ".pdf",
         label := "arXiv PDF", requiresAuth := false,
         priority := (esLoop esPubOnly 0).length }] :=
  ⟨by rfl, c7_pdf_arxiv_fallback esPubOnly ("2024X") ("arXiv:2401.12345v2") (by rfl) (by decide)⟩

theorem listPlugins_false_none (s : ManagerState) :
    listPlugins s false none = s.plugins.map (fun r => r.plugin) := by
  simp [listPlugins]

theorem listPlugins_true_none (s : ManagerState) :
    listPlugins s true none = (s.plugins.filter (fun r => r.enabled)).map (fun r => r.plugin) := by
  simp [listPlugins]

theorem hasId_mk_append (l : List Registration) (a : Option String)
    (m : List (String × Nat)) (p : Plugin) :
    hasId { plugins := l ++ [{ id := p.id, plugin := p, enabled := true }], activePluginId := a, lastRequestTime := m } p.id = true := by
  simp [hasId]

theorem register_ok_shape {s : ManagerState} {p : Plugin} {s1 : ManagerState}
    (h : register s p = .ok s1) :
    validatePlugin p = [] ∧ hasId s p.id = false ∧
    s1.plugins = s.plugins ++ [{ id := p.id, plugin := p, enabled := true }] ∧
    s1.lastRequestTime = s.lastRequestTime ∧
    (s1.activePluginId = some p.id ∨ s1.activePluginId = s.activePluginId) := by
  by_cases hv : (validatePlugin p).isEmpty = true
  · by_cases hid : hasId s p.id = true
    · exfalso
      simp [register, hv, hid] at h
    · have hid2 : hasId s p.id = false := by simpa using hid
      have hvl : validatePlugin p = [] := by simpa using hv
      by_cases ha : s.activePluginId = none
      · have h2 : register s p = .ok { s with plugins := s.plugins ++ [{ id := p.id, plugin := p, enabled := true }], activePluginId := some p.id } := by
          simp [register, hv, hid2, ha, setActive, hasId_mk_append]
        rw [h2] at h
        have h3 := Except.ok.inj h
        rw [← h3]
        exact ⟨hvl, hid2, rfl, rfl, Or.inl rfl⟩
      · have ha2 : (s.activePluginId == none) = false := by
          cases hx : s.activePluginId with
          | none => exact absurd hx ha
          | some v => rfl
        have h2 : register s p = .ok { s with plugins := s.plugins ++ [{ id := p.id, plugin := p, enabled := true }] } := by
          simp [register, hv, hid2, ha2]
        rw [h2] at h
        have h3 := Except.ok.inj h
        rw [← h3]
        exact ⟨hvl, hid2, rfl, rfl, Or.inr rfl⟩
  · exfalso
    have hv2 : (validatePlugin p).isEmpty = false := by simpa using hv
    simp [register, hv2] at h

theorem register_succeeds {s : ManagerState} {p : Plugin}
    (h1 : validatePlugin p = []) (h2 : hasId s p.id = false) :
    isOkB (register s p) = true := by
  by_cases ha : s.activePluginId = none
  · simp [register, isOkB, h1, h2, ha, setActive, hasId_mk_append]
  · have ha2 : (s.activePluginId == none) = false := by
      cases hx : s.activePluginId with
      | none => exact absurd hx ha
      | some v => rfl
    simp [register, isOkB, h1, h2, ha2]

/-- C5 counterexample: a plugin declaring the references, citations,
bibtex and metadata capabilities with none of the corresponding methods
passes validation and registers successfully, so register does not fail
for those four capability flags as the claim states. -/
theorem c5_counterexample :
    pRefsOnly.capabilities.references = true ∧
    pRefsOnly.capabilities.citations = true ∧
    pRefsOnly.capabilities.bibtex = true ∧
    pRefsOnly.capabilities.metadata = true ∧
    pRefsOnly.hasGetReferences = false ∧
    pRefsOnly.hasGetCitations = false ∧
    pRefsOnly.hasGetBibtex = false ∧
    validatePlugin pRefsOnly = [] ∧
    isOkB (register emptyState pRefsOnly) = true := by
  refine ⟨rfl, rfl, rfl, rfl, rfl, rfl, rfl, rfl, rfl⟩

/-- C5 amended: register succeeds exactly when validation passes (required
properties id, name, capabilities, auth; the ID format rule; and
capability-to-method checks for search, lookup and pdfDownload only — the
references, citations, bibtex and metadata flags are not checked against
methods) and the id is not already registered; a successful call appends
exactly one enabled registration; and registering a second plugin with the
same id fails and leaves the registry unchanged, retaining only the
first. -/
theorem c5_register_validation :
    (∀ (s : ManagerState) (p : Plugin),
       isOkB (register s p) = true ↔ (validatePlugin p = [] ∧ hasId s p.id = false)) ∧
    (∀ (s : ManagerState) (p : Plugin) (s1 : ManagerState), register s p = .ok s1 →
       s1.plugins = s.plugins ++ [{ id := p.id, plugin := p, enabled := true }]) ∧
    (∀ (s : ManagerState) (p q : Plugin) (s1 : ManagerState), register s p = .ok s1 →
       q.id = p.id →
       isOkB (register s1 q) = false ∧ step s1 (MgrOp.opRegister q) = s1) := by
  refine ⟨?_, ?_, ?_⟩
  · intro s p
    constructor
    · intro h
      cases he : register s p with
      | error e => rw [he] at h; simp [isOkB] at h
      | ok s1 =>
          have hs := register_ok_shape he
          exact ⟨hs.1, hs.2.1⟩
    · intro h
      exact register_succeeds h.1 h.2
  · intro s p s1 h
    exact (register_ok_shape h).2.2.1
  · intro s p q s1 h hq
    have hs := register_ok_shape h
    have hid : hasId s1 q.id = true := by
      unfold hasId
      rw [hs.2.2.1, hq]
      simp
    have hfail : isOkB (register s1 q) = false := by
      by_cases hv : (validatePlugin q).isEmpty = true
      · simp [register, isOkB, hv, hid]
      · have hv2 : (validatePlugin q).isEmpty = false := by simpa using hv
        simp [register, isOkB, hv2]
    refine ⟨hfail, ?_⟩
    cases he : register s1 q with
    | error e => simp [step, he]
    | ok s2 => rw [he] at hfail; simp [isOkB] at hfail

/-- C5 witness: the duplicate-registration clause instantiated with the
minimal valid plugin `pa` registered twice into an empty manager. -/
theorem c5_witness :
    isOkB (register regDemoS1 (basePlugin ("pa"))) = false ∧
    step regDemoS1 (MgrOp.opRegister (basePlugin ("pa"))) = regDemoS1 :=
  c5_register_validation.2.2 emptyState (basePlugin ("pa")) (basePlugin ("pa")) regDemoS1
    (by rfl) rfl

/-- C6: registering into an empty manager makes the plugin active;
unregistering the active plugin repoints the active pointer to the first
remaining registration (so exactly one other plugin is promoted when any
remains, and none when none remains), and unregistering a non-active
plugin leaves the active pointer unchanged. -/
theorem c6_active_promotion :
    (∀ (p : Plugin) (s1 : ManagerState), register emptyState p = .ok s1 →
       s1.activePluginId = some p.id) ∧
    (∀ (s : ManagerState) (pid : String) (s1 : ManagerState), unregister s pid = .ok s1 →
       ((s.activePluginId = some pid →
           s1.activePluginId =
             ((s.plugins.filter (fun r => !(r.id == pid))).head?).map (fun r => r.plugin.id)) ∧
        (s.activePluginId ≠ some pid → s1.activePluginId = s.activePluginId))) := by
  constructor
  · intro p s1 h
    by_cases hv : (validatePlugin p).isEmpty = true
    · have hid2 : hasId emptyState p.id = false := rfl
      have h2 : register emptyState p = .ok { plugins := [{ id := p.id, plugin := p, enabled := true }], activePluginId := some p.id, lastRequestTime := [] } := by
        simp [register, hv, hid2, emptyState, setActive, hasId]
      rw [h2] at h
      have h3 := Except.ok.inj h
      rw [← h3]
    · exfalso
      have hv2 : (validatePlugin p).isEmpty = false := by simpa using hv
      simp [register, hv2] at h
  · intro s pid s1 h
    by_cases hid : hasId s pid = true
    · constructor
      · intro ha
        have hbeq : (s.activePluginId == some pid) = true := by rw [ha]; simp
        have h2 : unregister s pid = .ok { s with plugins := s.plugins.filter (fun r => !(r.id == pid)), activePluginId := (((s.plugins.filter (fun r => !(r.id == pid))).map (fun r => r.plugin)).head?).map (fun p => p.id) } := by
          simp [unregister, hid, hbeq, listPlugins_false_none]
        rw [h2] at h
        have h3 := Except.ok.inj h
        rw [← h3]
        simp
        cases List.find? (fun r => !(r.id == pid)) s.plugins <;> rfl
      · intro ha
        have hbeq : (s.activePluginId == some pid) = false := by
          cases hx : s.activePluginId with
          | none => rfl
          | some v =>
              have hv : v ≠ pid := by
                intro hh
                exact ha (by rw [hx, hh])
              simpa using hv
        have h2 : unregister s pid = .ok { s with plugins := s.plugins.filter (fun r => !(r.id == pid)) } := by
          simp [unregister, hid, hbeq]
        rw [h2] at h
        have h3 := Except.ok.inj h
        rw [← h3]
    · exfalso
      have hid2 : hasId s pid = false := by simpa using hid
      simp [unregister, hid2] at h

/-- C6 witness: registering `pa` into an empty manager makes it active,
and unregistering `pa` from the two-plugin registry promotes the first
remaining plugin. -/
theorem c6_witness :
    regDemoS1.activePluginId = some ((basePlugin ("pa")).id) ∧
    regDemoS3.activePluginId =
      ((regDemoS2.plugins.filter (fun r => !(r.id == "pa"))).head?).map
        (fun r => r.plugin.id) :=
  ⟨c6_active_promotion.1 (basePlugin ("pa")) regDemoS1 (by rfl),
   (c6_active_promotion.2 regDemoS2 ("pa") regDemoS3 (by rfl)).1 (by rfl)⟩

theorem fedLoop_fst (q : UnifiedQuery) (l : List Plugin) :
    (fedLoop q l).1 = l.filterMap (fun p =>
      match callSearch p q with
      | .ok r => some (p.id, tagSearchResult p.id r)
      | .error _ => none) := by
  induction l with
  | nil => rfl
  | cons p rest ih =>
      simp only [fedLoop, List.filterMap_cons]
      cases hc : callSearch p q with
      | ok r => simp [hc, ih]
      | error e => simp [hc, ih]

theorem fedLoop_snd (q : UnifiedQuery) (l : List Plugin) :
    (fedLoop q l).2 = l.filterMap (fun p =>
      match callSearch p q with
      | .ok _ => none
      | .error e => some (p.id, e)) := by
  induction l with
  | nil => rfl
  | cons p rest ih =>
      simp only [fedLoop, List.filterMap_cons]
      cases hc : callSearch p q with
      | ok r => simp [hc, ih]
      | error e => simp [hc, ih]

theorem fed_fst_key (s : ManagerState) (q : UnifiedQuery) (pid : String) :
    pid ∈ (federatedSearch s q).1.map Prod.fst ↔
      ∃ p ∈ searchPluginsOf s, p.id = pid ∧ isOkB (callSearch p q) = true := by
  rw [federatedSearch, fedLoop_fst]
  constructor
  · intro h
    obtain ⟨x, hx, hfst⟩ := List.mem_map.mp h
    obtain ⟨p, hp, hsome⟩ := List.mem_filterMap.mp hx
    cases hc : callSearch p q with
    | ok r =>
        rw [hc] at hsome
        refine ⟨p, hp, ?_, by simp [isOkB, hc]⟩
        have := Option.some.inj hsome
        rw [← hfst, ← this]
    | error e => rw [hc] at hsome; cases hsome
  · intro h
    obtain ⟨p, hp, hid, hok⟩ := h
    cases hc : callSearch p q with
    | ok r =>
        refine List.mem_map.mpr ⟨(p.id, tagSearchResult p.id r), ?_, hid⟩
        exact List.mem_filterMap.mpr ⟨p, hp, by rw [hc]⟩
    | error e => rw [hc] at hok; simp [isOkB] at hok

theorem fed_snd_key (s : ManagerState) (q : UnifiedQuery) (pid : String) :
    pid ∈ (federatedSearch s q).2.map Prod.fst ↔
      ∃ p ∈ searchPluginsOf s, p.id = pid ∧ isOkB (callSearch p q) = false := by
  rw [federatedSearch, fedLoop_snd]
  constructor
  · intro h
    obtain ⟨x, hx, hfst⟩ := List.mem_map.mp h
    obtain ⟨p, hp, hsome⟩ := List.mem_filterMap.mp hx
    cases hc : callSearch p q with
    | ok r => rw [hc] at hsome; cases hsome
    | error e =>
        rw [hc] at hsome
        refine ⟨p, hp, ?_, by simp [isOkB, hc]⟩
        have := Option.some.inj hsome
        rw [← hfst, ← this]
  · intro h
    obtain ⟨p, hp, hid, hok⟩ := h
    cases hc : callSearch p q with
    | ok r => rw [hc] at hok; simp [isOkB] at hok
    | error e =>
        refine List.mem_map.mpr ⟨(p.id, e), ?_, hid⟩
        exact List.mem_filterMap.mpr ⟨p, hp, by rw [hc]⟩

theorem searchPlugins_ids_nodup {s : ManagerState}
    (hnd : (s.plugins.map (fun r => r.plugin.id)).Nodup) :
    ((searchPluginsOf s).map (fun p => p.id)).Nodup := by
  have heq : (searchPluginsOf s).map (fun p => p.id) =
      (s.plugins.filter (fun reg => (!true || reg.enabled) && capGet reg.plugin.capabilities CapKey.search)).map
        (fun r => r.plugin.id) := by
    simp [searchPluginsOf, listPlugins, Function.comp]
  rw [heq]
  exact hnd.sublist ((List.filter_sublist _).map _)

/-- C1: federatedSearch dispatches to exactly the enabled search-capable
plugins and returns a results-map and an errors-map with each such plugin
id in exactly one of the two (its tagged SearchResult on success, its
exception on failure); one plugin throwing never removes another plugin
from the maps, and the function is total (it never throws, every
per-plugin error being caught into the errors-map). -/
theorem c1_federated_search_isolation (s : ManagerState) (q : UnifiedQuery)
    (hnd : (s.plugins.map (fun r => r.plugin.id)).Nodup) :
    (∀ p ∈ searchPluginsOf s,
       (∀ r, callSearch p q = .ok r →
          (p.id, tagSearchResult p.id r) ∈ (federatedSearch s q).1) ∧
       (∀ e, callSearch p q = .error e →
          (p.id, e) ∈ (federatedSearch s q).2)) ∧
    (∀ pid, (pid ∈ (federatedSearch s q).1.map Prod.fst ∨
             pid ∈ (federatedSearch s q).2.map Prod.fst) ↔
            pid ∈ (searchPluginsOf s).map (fun p => p.id)) ∧
    (∀ pid, pid ∈ (federatedSearch s q).1.map Prod.fst →
            pid ∈ (federatedSearch s q).2.map Prod.fst → False) := by
  have hnd2 := searchPlugins_ids_nodup hnd
  refine ⟨?_, ?_, ?_⟩
  · intro p hp
    constructor
    · intro r hr
      rw [federatedSearch, fedLoop_fst]
      exact List.mem_filterMap.mpr ⟨p, hp, by rw [hr]⟩
    · intro e he
      rw [federatedSearch, fedLoop_snd]
      exact List.mem_filterMap.mpr ⟨p, hp, by rw [he]⟩
  · intro pid
    constructor
    · intro h
      cases h with
      | inl h1 =>
          obtain ⟨p, hp, hid, _⟩ := (fed_fst_key s q pid).mp h1
          exact List.mem_map.mpr ⟨p, hp, hid⟩
      | inr h2 =>
          obtain ⟨p, hp, hid, _⟩ := (fed_snd_key s q pid).mp h2
          exact List.mem_map.mpr ⟨p, hp, hid⟩
    · intro h
      obtain ⟨p, hp, hid⟩ := List.mem_map.mp h
      cases hc : callSearch p q with
      | ok r =>
          exact Or.inl ((fed_fst_key s q pid).mpr ⟨p, hp, hid, by simp [isOkB, hc]⟩)
      | error e =>
          exact Or.inr ((fed_snd_key s q pid).mpr ⟨p, hp, hid, by simp [isOkB, hc]⟩)
  · intro pid h1 h2
    obtain ⟨p1, hp1, hid1, hok1⟩ := (fed_fst_key s q pid).mp h1
    obtain ⟨p2, hp2, hid2, hok2⟩ := (fed_snd_key s q pid).mp h2
    have hpp : p1 = p2 :=
      List.inj_on_of_nodup_map hnd2 hp1 hp2 (by rw [hid1, hid2])
    rw [hpp] at hok1
    rw [hok1] at hok2
    cases hok2

/-- C1 witness: the three-plugin scenario with one throwing plugin,
yielding two successes, one error, and the disjointness of the two key
sets via the main theorem. -/
theorem c1_witness :
    (fedDemoState.plugins.map (fun r => r.plugin.id)).Nodup ∧
    (federatedSearch fedDemoState qDemo).1.map Prod.fst = ["pa", "pc"] ∧
    (federatedSearch fedDemoState qDemo).2.map Prod.fst = ["pb"] ∧
    (∀ pid, pid ∈ (federatedSearch fedDemoState qDemo).1.map Prod.fst →
            pid ∈ (federatedSearch fedDemoState qDemo).2.map Prod.fst → False) :=
  ⟨by decide, by rfl, by rfl,
   (c1_federated_search_isolation fedDemoState qDemo (by decide)).2.2⟩

theorem lookupOthers_eq (activeId : Option String) (ident : String) (ty : IdType)
    (l : List Plugin) :
    lookupOthers activeId ident ty l =
      (l.filter (fun p => !(match activeId with
                            | some a => p.id == a
                            | none => false))).findSome? (lookupAttempt ident ty) := by
  induction l with
  | nil => cases activeId <;> rfl
  | cons p rest ih =>
      cases activeId with
      | none =>
          cases ha : lookupAttempt ident ty p with
          | some paper =>
              simp [lookupOthers, List.filter_cons, List.findSome?_cons, ha]
          | none =>
              simp [lookupOthers, List.filter_cons, List.findSome?_cons, ha, ih]
      | some aid =>
          by_cases hskip : (p.id == aid) = true
          · simp [lookupOthers, List.filter_cons, hskip, ih]
          · have hskip2 : (p.id == aid) = false := by simpa using hskip
            cases ha : lookupAttempt ident ty p with
            | some paper =>
                simp [lookupOthers, List.filter_cons, List.findSome?_cons, hskip2, ha]
            | none =>
                simp [lookupOthers, List.filter_cons, List.findSome?_cons, hskip2, ha, ih]

/-- C2: lookup classifies the identifier, then returns the first non-null
attempt along the candidate list that puts the lookup-capable active
plugin first and the remaining enabled lookup-capable plugins after it in
registration order, where one attempt uses getByDOI for doi, getByArxiv
for arxiv, and getRecord otherwise or when the specific method is absent,
and where an attempt that throws counts as a miss and is never propagated;
in particular for the DOI identifier 10.1234/x with an active plugin whose
getByDOI returns null and a second plugin whose getByDOI returns a paper,
lookup returns the second plugin paper. -/
theorem c2_lookup_fallback_order :
    (∀ (s : ManagerState) (identifier : String),
       lookup s identifier =
         (lookupCandidates s).findSome?
           (lookupAttempt identifier (detectIdentifierType identifier))) ∧
    detectIdentifierType "10.1234/x" = IdType.doi ∧
    lookup lookupDemoState "10.1234/x" = some lookupDemoPaper := by
  refine ⟨?_, by decide, by rfl⟩
  intro s ident
  unfold lookup lookupCandidates
  cases ha : getActive s with
  | none =>
      simp only [Option.map_none]
      rw [lookupOthers_eq]
      simp
  | some a =>
      by_cases hl : a.capabilities.lookup = true
      · cases hat : lookupAttempt ident (detectIdentifierType ident) a with
        | some paper =>
            simp [hl, hat]
        | none =>
            simp only [hl, if_true, hat, Option.map_some]
            rw [lookupOthers_eq]
            simp [List.findSome?_cons, hat]
      · have hl2 : a.capabilities.lookup = false := by simpa using hl
        simp only [hl2]
        rw [lookupOthers_eq]
        simp

theorem find?_map_set (pid : String) (t : Nat) :
    ∀ (m : List (String × Nat)), m.any (fun kv => kv.1 == pid) = true →
      ((m.map (fun kv => if kv.1 == pid then (pid, t) else kv)).find?
          (fun kv => kv.1 == pid)) = some (pid, t) := by
  intro m
  induction m with
  | nil => intro h; cases h
  | cons kv tl ih =>
      intro h
      rw [List.map_cons]
      by_cases hk : (kv.1 == pid) = true
      · have hkv : (if (kv.1 == pid) = true then (pid, t) else kv) = (pid, t) := if_pos hk
        rw [hkv]
        exact List.find?_cons_of_pos _ (by simp)
      · have hk2 : (kv.1 == pid) = false := by simpa using hk
        have htl : tl.any (fun kv => kv.1 == pid) = true := by
          simpa [hk2] using h
        have hkv : (if (kv.1 == pid) = true then (pid, t) else kv) = kv := if_neg (by rw [hk2]; simp)
        rw [hkv, List.find?_cons_of_neg _ (by rw [hk2]; simp)]
        exact ih htl

theorem find?_append_of_none {p : (String × Nat) → Bool} :
    ∀ (m l2 : List (String × Nat)), m.find? p = none →
      (m ++ l2).find? p = l2.find? p := by
  intro m
  induction m with
  | nil => intro l2 _; rfl
  | cons kv tl ih =>
      intro l2 h
      by_cases hk : p kv = true
      · rw [List.find?_cons_of_pos _ hk] at h; cases h
      · have hk2 : ¬(p kv = true) := by simpa using hk
        rw [List.find?_cons_of_neg _ hk2] at h
        rw [List.cons_append, List.find?_cons_of_neg _ hk2]
        exact ih l2 h

theorem lookupLast_setLast (m : List (String × Nat)) (pid : String) (t : Nat) :
    lookupLast (setLast m pid t) pid = some t := by
  unfold setLast lookupLast
  by_cases h : m.any (fun kv => kv.1 == pid) = true
  · rw [if_pos h, find?_map_set pid t m h]
    rfl
  · have h2 : m.any (fun kv => kv.1 == pid) = false := by
      cases hb : m.any (fun kv => kv.1 == pid) with
      | true => exact absurd hb h
      | false => rfl
    rw [if_neg (by rw [h2]; simp)]
    have hnone : m.find? (fun kv => kv.1 == pid) = none := by
      rw [List.find?_eq_none]
      intro x hx
      have := (List.any_eq_false).mp h2 x hx
      simpa using this
    rw [find?_append_of_none m _ hnone]
    simp

/-- C8 counterexample: the id `constructor` passes the plugin ID format
rule and its plugin passes validation, yet `_getMinDelay` finds the truthy
inherited `Object.prototype.constructor` instead of the 100 ms default, so
with a last request at 550 ms and a call at 600 ms (elapsed 50 ms, below
the claimed moderate default of 100 ms) the manager suspends for 0 ms —
no minimum-delay spacing at all — while still recording the dispatch
time. -/
theorem c8_counterexample :
    idFormatOk ("constructor") = true ∧
    validatePlugin ctorPlugin = [] ∧
    getMinDelay ("constructor") = DelayVal.protoObj ∧
    ((600 : Int) - 550 < (100 : Int)) ∧
    (enforceRateLimit ctorState ("constructor") 600).1 = 0 ∧
    lookupLast ((enforceRateLimit ctorState ("constructor") 600).2.lastRequestTime)
        ("constructor") = some 600 := by
  refine ⟨by decide, by rfl, by decide, by decide, by rfl, by rfl⟩

/-- C8 amended: for every plugin whose id resolves to a numeric minimum
delay (the own keys ads 50 ms, arxiv 3000 ms, inspire 350 ms, default
100 ms, and every unrecognized id that does not collide with an
`Object.prototype` property name), a dispatch arriving while the elapsed
time since the last recorded request is below that delay is suspended at
least for the difference, so it happens no earlier than minDelay after the
previous recorded request, and the dispatch time is then recorded as the
new last-request time; unrecognized ids other than the
`Object.prototype` collisions get the moderate 100 ms default, while a
colliding id (such as `constructor`) receives the inherited non-numeric
value and is never suspended by the minimum-delay rule. -/
theorem c8_rate_limit_spacing :
    (∀ (s : ManagerState) (pid : String) (now : Nat) (p : Plugin) (st : RateLimitStatus)
       (md : Nat),
       mgrGet s pid = some p → p.rateLimitStatus = some st →
       getMinDelay pid = DelayVal.num md →
       ((((now + retryWaitMs st : Int) -
            ((lookupLast s.lastRequestTime pid).getD 0 : Int)) < ((md : Nat) : Int) →
          ((lookupLast s.lastRequestTime pid).getD 0 : Int) + ((md : Nat) : Int) ≤
            (now + (enforceRateLimit s pid now).1 : Int)) ∧
        lookupLast ((enforceRateLimit s pid now).2.lastRequestTime) pid =
          some (now + (enforceRateLimit s pid now).1))) ∧
    (∀ pid : String, pid ≠ "ads" → pid ≠ "arxiv" → pid ≠ "inspire" →
       pid ∉ objectProtoKeys → getMinDelay pid = DelayVal.num 100) := by
  constructor
  · intro s pid now p st md hp hst hmd
    simp only [enforceRateLimit, hp, hst, hmd]
    constructor
    · intro hlt
      split
      · rename_i hcond
        rw [Nat.cast_add, Int.toNat_of_nonneg (by omega)]
        omega
      · rename_i hcond
        omega
    · split <;> (rw [lookupLast_setLast]; try simp only [Option.some.injEq]; try omega)
  · intro pid h1 h2 h3 h4
    have b1 : (pid == "ads") = false := by simpa using h1
    have b2 : (pid == "arxiv") = false := by simpa using h2
    have b3 : (pid == "inspire") = false := by simpa using h3
    by_cases b5 : (pid == "default") = true
    · simp [getMinDelay, b1, b2, b3, b5]
    · have b5f : (pid == "default") = false := by
        cases hb : (pid == "default") with
        | true => exact absurd hb b5
        | false => rfl
      simp [getMinDelay, b1, b2, b3, b5f, h4]

/-- C8 witness: plugin `arxiv` (numeric minimum delay 3000 ms) with last
request recorded at 500 ms and a new call at 600 ms is suspended 2900 ms,
dispatching exactly at the 3000 ms minimum spacing, and the dispatch time
is recorded. -/
theorem c8_witness :
    (enforceRateLimit rlState ("arxiv") 600).1 = 2900 ∧
    ((((600 + retryWaitMs rlDemoStatus : Int) -
         ((lookupLast rlState.lastRequestTime ("arxiv")).getD 0 : Int)) <
           (((3000 : Nat) : Nat) : Int) →
       ((lookupLast rlState.lastRequestTime ("arxiv")).getD 0 : Int) +
           (((3000 : Nat) : Nat) : Int) ≤
         (600 + (enforceRateLimit rlState ("arxiv") 600).1 : Int)) ∧
     lookupLast ((enforceRateLimit rlState ("arxiv") 600).2.lastRequestTime) ("arxiv") =
       some (600 + (enforceRateLimit rlState ("arxiv") 600).1)) :=
  ⟨by rfl,
   c8_rate_limit_spacing.1 rlState ("arxiv") 600 rlPlugin rlDemoStatus 3000
     (by rfl) (by rfl) (by rfl)⟩

theorem head?_some_mem {α : Type} {l : List α} {a : α} (h : l.head? = some a) : a ∈ l := by
  cases l with
  | nil => cases h
  | cons x t =>
      have hx := Option.some.inj h
      rw [← hx]
      exact List.mem_cons_self x t

theorem ids_of_map {g : Registration → Registration} (hg : ∀ r, (g r).id = r.id)
    (l : List Registration) :
    (l.map g).map (fun r => r.id) = l.map (fun r => r.id) := by
  rw [List.map_map]
  exact List.map_congr_left (fun r _ => hg r)

theorem unregister_ok_shape {s : ManagerState} {pid : String} {s1 : ManagerState}
    (h : unregister s pid = .ok s1) :
    s1.plugins = s.plugins.filter (fun r => !(r.id == pid)) ∧
    ((s.activePluginId ≠ some pid ∧ s1.activePluginId = s.activePluginId) ∨
     s1.activePluginId =
       ((s.plugins.filter (fun r => !(r.id == pid))).head?).map (fun r => r.plugin.id)) := by
  by_cases hid : hasId s pid = true
  · cases hbeq : (s.activePluginId == some pid) with
    | true =>
        have h2 : unregister s pid = .ok { s with plugins := s.plugins.filter (fun r => !(r.id == pid)), activePluginId := (((s.plugins.filter (fun r => !(r.id == pid))).map (fun r => r.plugin)).head?).map (fun p => p.id) } := by
          simp [unregister, hid, hbeq, listPlugins_false_none]
        rw [h2] at h
        have h3 := Except.ok.inj h
        rw [← h3]
        refine ⟨rfl, Or.inr ?_⟩
        simp
        cases List.find? (fun r => !(r.id == pid)) s.plugins <;> rfl
    | false =>
        have h2 : unregister s pid = .ok { s with plugins := s.plugins.filter (fun r => !(r.id == pid)) } := by
          simp [unregister, hid, hbeq]
        rw [h2] at h
        have h3 := Except.ok.inj h
        rw [← h3]
        refine ⟨rfl, Or.inl ⟨?_, rfl⟩⟩
        intro ha
        rw [ha] at hbeq
        simp at hbeq
  · exfalso
    have hid2 : hasId s pid = false := by
      cases hb : hasId s pid with
      | true => exact absurd hb hid
      | false => rfl
    simp [unregister, hid2] at h

theorem inv_step {s : ManagerState} (hI : Inv s) (op : MgrOp) : Inv (step s op) := by
  obtain ⟨hI1, hI2⟩ := hI
  cases op with
  | opRegister p =>
      cases he : register s p with
      | error e => simpa [step, he] using ⟨hI1, hI2⟩
      | ok s1 =>
          have hs := register_ok_shape he
          have hstep : step s (MgrOp.opRegister p) = s1 := by simp [step, he]
          rw [hstep]
          constructor
          · intro r hr
            rw [hs.2.2.1] at hr
            cases List.mem_append.mp hr with
            | inl hold => exact hI1 r hold
            | inr hnew =>
                have : r = { id := p.id, plugin := p, enabled := true } := by
                  simpa using hnew
                rw [this]
          · intro a ha
            rw [hs.2.2.1]
            cases hs.2.2.2.2 with
            | inl hact =>
                rw [hact] at ha
                have hap := Option.some.inj ha
                rw [← hap]
                simp
            | inr hact =>
                rw [hact] at ha
                have := hI2 a ha
                rw [List.map_append]
                exact List.mem_append.mpr (Or.inl this)
  | opUnregister pid =>
      cases he : unregister s pid with
      | error e => simpa [step, he] using ⟨hI1, hI2⟩
      | ok s1 =>
          have hs := unregister_ok_shape he
          have hstep : step s (MgrOp.opUnregister pid) = s1 := by simp [step, he]
          rw [hstep]
          have hP1 : ∀ r ∈ s1.plugins, r.id = r.plugin.id := by
            intro r hr
            rw [hs.1] at hr
            exact hI1 r (List.mem_filter.mp hr).1
          refine ⟨hP1, ?_⟩
          intro a ha
          cases hs.2 with
          | inl hun =>
              obtain ⟨hne, hact⟩ := hun
              rw [hact] at ha
              have hmem := hI2 a ha
              obtain ⟨r, hr, hrid⟩ := List.mem_map.mp hmem
              have hrne : (r.id == pid) = false := by
                have : a ≠ pid := by
                  intro hh
                  exact hne (by rw [ha, hh])
                rw [hrid]
                simpa using this
              rw [hs.1]
              exact List.mem_map.mpr ⟨r, List.mem_filter.mpr ⟨hr, by rw [hrne]; rfl⟩, hrid⟩
          | inr hact =>
              rw [hact] at ha
              cases hh : (s.plugins.filter (fun r => !(r.id == pid))).head? with
              | none => rw [hh] at ha; cases ha
              | some r =>
                  rw [hh] at ha
                  have hap := Option.some.inj ha
                  have hrmem : r ∈ s.plugins.filter (fun r => !(r.id == pid)) :=
                    head?_some_mem hh
                  have hrid : r.id = r.plugin.id := hI1 r (List.mem_filter.mp hrmem).1
                  rw [hs.1]
                  exact List.mem_map.mpr ⟨r, hrmem, by show r.id = a; rw [hrid]; exact hap⟩
  | opSetActive pid =>
      by_cases hid : hasId s pid = true
      · have hstep : step s (MgrOp.opSetActive pid) = { s with activePluginId := some pid } := by
          simp [step, setActive, hid]
        rw [hstep]
        refine ⟨hI1, ?_⟩
        intro a ha
        have ha2 : some pid = some a := ha
        have hap := Option.some.inj ha2
        obtain ⟨r, hr, hrp⟩ := List.any_eq_true.mp hid
        have hrid : r.id = pid := by simpa using hrp
        rw [← hap]
        exact List.mem_map.mpr ⟨r, hr, hrid⟩
      · have hid2 : hasId s pid = false := by
          cases hb : hasId s pid with
          | true => exact absurd hb hid
          | false => rfl
        have hstep : step s (MgrOp.opSetActive pid) = s := by
          simp [step, setActive, hid2]
        rw [hstep]
        exact ⟨hI1, hI2⟩
  | opEnable pid =>
      by_cases hid : hasId s pid = true
      · have hstep : step s (MgrOp.opEnable pid) = { s with plugins := s.plugins.map (fun r => if r.id == pid then { r with enabled := true } else r) } := by
          simp [step, enable, hid]
        rw [hstep]
        have hg : ∀ r : Registration,
            ((fun r => if r.id == pid then { r with enabled := true } else r) r).id = r.id := by
          intro r
          by_cases hb : (r.id == pid) = true
          · simp [hb]
          · have hb2 : (r.id == pid) = false := by
              cases hbb : (r.id == pid) with
              | true => exact absurd hbb hb
              | false => rfl
            simp [hb2]
        constructor
        · intro r hr
          obtain ⟨r0, hr0, hgr⟩ := List.mem_map.mp hr
          rw [← hgr]
          have hid0 := hI1 r0 hr0
          by_cases hb : (r0.id == pid) = true
          · simpa [hb] using hid0
          · have hb2 : (r0.id == pid) = false := by
              cases hbb : (r0.id == pid) with
              | true => exact absurd hbb hb
              | false => rfl
            simpa [hb2] using hid0
        · intro a ha
          have ha2 : s.activePluginId = some a := ha
          have hmem := hI2 a ha2
          rw [ids_of_map hg]
          exact hmem
      · have hid2 : hasId s pid = false := by
          cases hb : hasId s pid with
          | true => exact absurd hb hid
          | false => rfl
        have hstep : step s (MgrOp.opEnable pid) = s := by
          simp [step, enable, hid2]
        rw [hstep]
        exact ⟨hI1, hI2⟩
  | opDisable pid =>
      by_cases hid : hasId s pid = true
      · have hg : ∀ r : Registration,
            ((fun r => if r.id == pid then { r with enabled := false } else r) r).id = r.id := by
          intro r
          by_cases hb : (r.id == pid) = true
          · simp [hb]
          · have hb2 : (r.id == pid) = false := by
              cases hbb : (r.id == pid) with
              | true => exact absurd hbb hb
              | false => rfl
            simp [hb2]
        have hP1 : ∀ r ∈ s.plugins.map (fun r => if r.id == pid then { r with enabled := false } else r),
            r.id = r.plugin.id := by
          intro r hr
          obtain ⟨r0, hr0, hgr⟩ := List.mem_map.mp hr
          rw [← hgr]
          have hid0 := hI1 r0 hr0
          by_cases hb : (r0.id == pid) = true
          · simpa [hb] using hid0
          · have hb2 : (r0.id == pid) = false := by
              cases hbb : (r0.id == pid) with
              | true => exact absurd hbb hb
              | false => rfl
            simpa [hb2] using hid0
        cases hbeq : (s.activePluginId == some pid) with
        | false =>
            have hstep : step s (MgrOp.opDisable pid) = { s with plugins := s.plugins.map (fun r => if r.id == pid then { r with enabled := false } else r) } := by
              simp [step, disable, hid, hbeq]
            rw [hstep]
            refine ⟨hP1, ?_⟩
            intro a ha
            have ha2 : s.activePluginId = some a := ha
            have hmem := hI2 a ha2
            rw [ids_of_map hg]
            exact hmem
        | true =>
            have hstep : step s (MgrOp.opDisable pid) = { s with plugins := s.plugins.map (fun r => if r.id == pid then { r with enabled := false } else r), activePluginId := ((((s.plugins.map (fun r => if r.id == pid then { r with enabled := false } else r)).filter (fun r => r.enabled)).map (fun r => r.plugin)).head?).map (fun p => p.id) } := by
              simp [step, disable, hid, hbeq, listPlugins_true_none]
            rw [hstep]
            refine ⟨hP1, ?_⟩
            intro a ha
            have ha2 : (((((s.plugins.map (fun r => if r.id == pid then { r with enabled := false } else r)).filter (fun r => r.enabled)).map (fun r => r.plugin)).head?).map (fun p => p.id)) = some a := ha
            cases hh : (((s.plugins.map (fun r => if r.id == pid then { r with enabled := false } else r)).filter (fun r => r.enabled)).head?) with
            | none =>
                exfalso
                rw [List.head?_map, hh] at ha2
                cases ha2
            | some r =>
                rw [List.head?_map, hh] at ha2
                have hap : r.plugin.id = a := Option.some.inj ha2
                have hrmem := head?_some_mem hh
                have hrmem2 := (List.mem_filter.mp hrmem).1
                have hrid : r.id = r.plugin.id := hP1 r hrmem2
                exact List.mem_map.mpr ⟨r, hrmem2, by rw [hrid, hap]⟩
      · have hid2 : hasId s pid = false := by
          cases hb : hasId s pid with
          | true => exact absurd hb hid
          | false => rfl
        have hstep : step s (MgrOp.opDisable pid) = s := by
          simp [step, disable, hid2]
        rw [hstep]
        exact ⟨hI1, hI2⟩
  | opInitAll fails =>
      have hg : ∀ r : Registration,
          ((fun r => if r.plugin.hasInitHook && fails r.id then { r with enabled := false } else r) r).id = r.id := by
        intro r
        by_cases hb : (r.plugin.hasInitHook && fails r.id) = true
        · simp [hb]
        · have hb2 : (r.plugin.hasInitHook && fails r.id) = false := by
            cases hbb : (r.plugin.hasInitHook && fails r.id) with
            | true => exact absurd hbb hb
            | false => rfl
          simp [hb2]
      have hstep : step s (MgrOp.opInitAll fails) = { s with plugins := s.plugins.map (fun r => if r.plugin.hasInitHook && fails r.id then { r with enabled := false } else r) } := rfl
      rw [hstep]
      constructor
      · intro r hr
        obtain ⟨r0, hr0, hgr⟩ := List.mem_map.mp hr
        rw [← hgr]
        have hid0 := hI1 r0 hr0
        by_cases hb : (r0.plugin.hasInitHook && fails r0.id) = true
        · simpa [hb] using hid0
        · have hb2 : (r0.plugin.hasInitHook && fails r0.id) = false := by
            cases hbb : (r0.plugin.hasInitHook && fails r0.id) with
            | true => exact absurd hbb hb
            | false => rfl
          simpa [hb2] using hid0
      · intro a ha
        have ha2 : s.activePluginId = some a := ha
        have hmem := hI2 a ha2
        rw [ids_of_map hg]
        exact hmem
  | opShutdown =>
      refine ⟨?_, ?_⟩
      · intro r hr
        cases hr
      · intro a ha
        have ha2 : (none : Option String) = some a := ha
        cases ha2

theorem inv_run (ops : List MgrOp) : ∀ (s : ManagerState), Inv s → Inv (run s ops) := by
  induction ops with
  | nil => intro s h; exact h
  | cons op rest ih => intro s h; exact ih _ (inv_step h op)

/-- C10: after any sequence of manager operations starting from a fresh
manager, the active-plugin pointer is either unset or names the id of a
currently-registered plugin; no operation leaves it pointing at an
unregistered id (the invariant does not require the active plugin to be
enabled, and disable indeed may leave a disabled plugin active only by
repointing, never dangling). -/
theorem c10_active_pointer_consistency :
    ∀ (ops : List MgrOp) (a : String),
      (run emptyState ops).activePluginId = some a →
      a ∈ (run emptyState ops).plugins.map (fun r => r.id) := by
  intro ops a ha
  have hinv0 : Inv emptyState := by
    constructor
    · intro r hr
      cases hr
    · intro a2 ha2
      have ha3 : (none : Option String) = some a2 := ha2
      cases ha3
  exact (inv_run ops emptyState hinv0).2 a ha

/-- C10 witness: after registering `pa` and `pb` and unregistering the
active `pa`, the active pointer names `pb`, which the theorem places among
the registered ids. -/
theorem c10_witness :
    (run emptyState c10DemoOps).activePluginId = some ("pb") ∧
    ("pb") ∈ (run emptyState c10DemoOps).plugins.map (fun r => r.id) :=
  ⟨by rfl, c10_active_pointer_consistency c10DemoOps ("pb") (by rfl)⟩

end AdsReader
